import Mathlib

/-!
Verification development for a two-component evaluation/reporting program.

Component 1 (src/deepeval_metrics.py): `get_metrics` builds a fixed ordered
suite of five evaluation checks, resolving each check threshold from a policy
that is either a single scalar or a mapping with per-check fallbacks.

Component 2 (src/test.py): `generate_full_latex_table` reads a CSV of result
rows and renders a LaTeX longtable: rename, filter and remap prompts, map
model identifiers to display labels, sort, derive a total column, and format
every numeric cell with fixed precision.

Machine floats of the source are embedded as rationals; Python dicts with
literal (hence duplicate-free) keys are embedded as association lists, whose
`lookup`/`getD` coincides with dict `get` with a default.
-/

/-- A threshold policy: the `thresholds` argument of `get_metrics` is either a
single float applied uniformly, or a dict from check name to float. -/
inductive Thresholds where
  | scalar (s : ℚ)
  | mapping (m : List (String × ℚ))

/-- Whether a check is a rubric-graded `GEval` or one of the built-in
classifier metrics (`AnswerRelevancyMetric`, `FaithfulnessMetric`,
`HallucinationMetric`). -/
inductive MetricKind where
  | rubric
  | classifier
deriving DecidableEq, Repr

/-- A constructed check, keeping the configuration the claims are about:
name, resolved threshold, kind, and the forwarded `model` and
`include_reason` arguments (`includeReason` is `none` for the two `GEval`
checks, whose constructor call does not take that flag). The rubric text
(criteria and evaluation steps) and the test-case parameter lists are unmodelled
grading-engine configuration payload with no bearing on any claim, so they
are not carried here. -/
structure Check where
  name : String
  threshold : ℚ
  kind : MetricKind
  model : Option String
  includeReason : Option Bool
deriving DecidableEq, Repr

/-- The per-check threshold expression of the source, e.g.
`thresholds if isinstance(thresholds, float) else thresholds.get("Correctness", 0.9)`. -/
def resolveThreshold (thresholds : Thresholds) (name : String) (default : ℚ) : ℚ :=
  match thresholds with
  | .scalar s => s
  | .mapping m => (m.lookup name).getD default

/-- Embedding of `get_metrics` from src/deepeval_metrics.py: returns the five
checks in the order they are listed in the source. -/
def get_metrics (model : Option String) (thresholds : Thresholds)
    (include_reason : Bool) : List Check :=
  let correctness_metric : Check :=
    { name := "Correctness"
      threshold := resolveThreshold thresholds "Correctness" (9/10)
      kind := .rubric
      model := model
      includeReason := none }
  let specific_info_accuracy_metric : Check :=
    { name := "Specific Information Accuracy"
      threshold := resolveThreshold thresholds "Specific Information Accuracy" (9/10)
      kind := .rubric
      model := model
      includeReason := none }
  let answer_relevancy : Check :=
    { name := "Answer Relevancy"
      threshold := resolveThreshold thresholds "Answer Relevancy" (9/10)
      kind := .classifier
      model := model
      includeReason := some include_reason }
  let faithfulness_metric : Check :=
    { name := "Faithfulness"
      threshold := resolveThreshold thresholds "Faithfulness" (9/10)
      kind := .classifier
      model := model
      includeReason := some include_reason }
  let hallucinationMetric : Check :=
    { name := "Hallucination"
      threshold := resolveThreshold thresholds "Hallucination" (4/5)
      kind := .classifier
      model := model
      includeReason := some include_reason }
  [correctness_metric, specific_info_accuracy_metric, answer_relevancy,
   faithfulness_metric, hallucinationMetric]

/-- The five canonical check names with their documented fallback thresholds,
in suite order. -/
def checkDefaults : List (String × ℚ) :=
  [("Correctness", 9/10),
   ("Specific Information Accuracy", 9/10),
   ("Answer Relevancy", 9/10),
   ("Faithfulness", 9/10),
   ("Hallucination", 4/5)]

/-- The single construction-time failure signal of the suite factory. -/
inductive SuiteError where
  | invalidThreshold
deriving DecidableEq, Repr

/-- Modelled from the spec: the check constructors (`GEval`,
`AnswerRelevancyMetric`, `FaithfulnessMetric`, `HallucinationMetric`) are
external deepeval library code, not under src/. Per the spec, constructing a
check fails with `InvalidThreshold` when its resolved threshold lies outside
the interval from 0 to 1; otherwise the check is a plain configuration object
and construction performs no network or grading call. -/
def mkCheck (name : String) (kind : MetricKind) (model : Option String)
    (includeReason : Option Bool) (threshold : ℚ) : Except SuiteError Check :=
  if 0 ≤ threshold ∧ threshold ≤ 1 then
    .ok { name := name, threshold := threshold, kind := kind,
          model := model, includeReason := includeReason }
  else
    .error .invalidThreshold

/-- Modelled from the spec: `get_metrics` with the external constructors
replaced by the validating `mkCheck`, so that suite construction aborts with
`InvalidThreshold` at the first out-of-range resolved threshold, returning
none of the suite in that case. -/
def get_metrics_checked (model : Option String) (thresholds : Thresholds)
    (include_reason : Bool) : Except SuiteError (List Check) := do
  let correctness_metric ← mkCheck "Correctness" .rubric model none
    (resolveThreshold thresholds "Correctness" (9/10))
  let specific_info_accuracy_metric ← mkCheck "Specific Information Accuracy" .rubric model none
    (resolveThreshold thresholds "Specific Information Accuracy" (9/10))
  let answer_relevancy ← mkCheck "Answer Relevancy" .classifier model (some include_reason)
    (resolveThreshold thresholds "Answer Relevancy" (9/10))
  let faithfulness_metric ← mkCheck "Faithfulness" .classifier model (some include_reason)
    (resolveThreshold thresholds "Faithfulness" (9/10))
  let hallucinationMetric ← mkCheck "Hallucination" .classifier model (some include_reason)
    (resolveThreshold thresholds "Hallucination" (4/5))
  return [correctness_metric, specific_info_accuracy_metric, answer_relevancy,
          faithfulness_metric, hallucinationMetric]

/-- The five per-metric values of one column cluster of a result row, in the
column order of the source (`metric_order`): Answer Relevancy, Correctness,
Faithfulness, Hallucination, Specific Information Accuracy. -/
structure MetricVals where
  ar : ℚ
  c : ℚ
  f : ℚ
  h : ℚ
  sia : ℚ
deriving DecidableEq, Repr

/-- One CSV result row after the initial rename of the `Configuration` column
to `Model`: the model identifier, the raw prompt identifier, the temperature
(`none` embeds a missing value, NaN in the source table), and the three
column clusters of five metric values each. -/
structure Row where
  model : String
  prompt : String
  temperature : Option ℚ
  avg : MetricVals
  gpt4o : MetricVals
  sonnet : MetricVals
deriving DecidableEq, Repr

/-- The prompt remap table of the source: exactly two recognized raw prompt
identifiers and their short display codes. -/
def prompt_mapping : List (String × String) :=
  [("current_user_template.txt", "P1"),
   ("previous_user_template.txt", "P2")]

/-- The curated model display-name table of the source. -/
def model_name_mapping : List (String × String) :=
  [("GENAI_SHARED_VERTEXAI_GOOGLE_GEMINI_15_FLASH", "Gemini 1.5 Flash"),
   ("GENAI_SHARED_VERTEXAI_GOOGLE_GEMINI_15_PRO", "Gemini 1.5 Pro"),
   ("GENAI_SHARED_VERTEXAI_GOOGLE_GEMINI_2_FLASH", "Gemini 2.0 Flash"),
   ("GENAI_SHARED_VERTEXAI_GOOGLE_GEMINI_2_FLASH_LITE", "Gemini 2.0 Flash Lite"),
   ("GENAI_SHARED_VERTEXAI_GOOGLE_GEMINI_25_PRO", "Gemini 2.5 Pro"),
   ("GENAI_SHARED_VERTEXAI_GOOGLE_GEMINI_25_FLASH", "Gemini 2.5 Flash"),
   ("GENAI_SHARED_VERTEXAI_ANTHROPIC_CLAUDE_35_SONNET", "Claude 3.5 Sonnet"),
   ("GENAI_SHARED_VERTEXAI_ANTHROPIC_CLAUDE_35_SONNET_V2", "Claude 3.5 Sonnet v2"),
   ("GENAI_SHARED_VERTEXAI_ANTHROPIC_CLAUDE_37_SONNET", "Claude 3.7 Sonnet"),
   ("GENAI_SHARED_VERTEXAI_ANTHROPIC_CLAUDE_4_SONNET", "Claude 4.0 Sonnet"),
   ("GENAI_SHARED_BEDROCK_ANTHROPIC_CLAUDE_3_HAIKU", "Claude 3 Haiku"),
   ("GENAI_SHARED_AZURE_OPENAI_GPT_4_OMNI", "GPT-4 Omni"),
   ("GENAI_SHARED_AZURE_OPENAI_GPT_4_OMNI_2024_20_11", "GPT-4 Omni (2024-11-20)"),
   ("GENAI_SHARED_AZURE_OPENAI_GPT_4_OMNI_MINI", "GPT-4 Omni Mini"),
   ("GENAI_SHARED_AZURE_OPENAI_GPT_41_NANO", "GPT-4.1 Nano"),
   ("GENAI_SHARED_AZURE_OPENAI_GPT_41", "GPT-4.1"),
   ("GENAI_SHARED_AZURE_OPENAI_O1_MINI", "O1 Mini"),
   ("GENAI_SHARED_AZURE_OPENAI_O1", "O1"),
   ("GENAI_SHARED_AZURE_OPENAI_O3", "O3"),
   ("GENAI_SHARED_AZURE_OPENAI_O3_MINI", "O3 Mini"),
   ("GENAI_SHARED_AZURE_OPENAI_O4_MINI", "O4 Mini"),
   ("GENAI_SHARED_AZURE_OPENAI_TEXT_ADA_002", "Ada-002"),
   ("GENAI_SHARED_AZURE_OPENAI_TEXT_EMBEDDING_003_LARGE", "Embedding-003 Large"),
   ("GENAI_SHARED_BEDROCK_AMAZON_TITAN_EMBED_TEXT_V1", "Titan Embed v1"),
   ("GENAI_SHARED_VERTEXAI_GOOGLE_TEXTEMBEDDING_GECKO", "Gecko")]

/-- The membership test `df["Prompt"].isin(prompt_mapping)` for one row. -/
def recognizedPrompt (r : Row) : Bool :=
  (prompt_mapping.lookup r.prompt).isSome

/-- The remap `df["Prompt"] = df["Prompt"].map(prompt_mapping)` for one row
(it is only ever applied to rows that passed `recognizedPrompt`, so the
`getD` default is never reached on the pipeline path). -/
def mapPromptRow (r : Row) : Row :=
  { r with prompt := (prompt_mapping.lookup r.prompt).getD r.prompt }

/-- The display label `df["Model"].map(model_name_mapping).fillna(df["Model"])`
of a row: the curated name when present, the raw identifier otherwise. -/
def mappedModel (r : Row) : String :=
  (model_name_mapping.lookup r.model).getD r.model

/-- Collation key for a possibly missing temperature: the default
`na_position` of the source sorting facility puts missing values last within
equal leading keys, so a missing temperature maps to the top element. -/
def tempKey : Option ℚ → WithTop ℚ
  | none => ⊤
  | some q => (q : WithTop ℚ)

/-- The lexicographic sort key `["MappedModel", "Prompt", "Temperature"]` of
the source sort call. The two string components are compared as their
code-point sequences, which is the string collation of the source. -/
def rowKey (r : Row) : (List Char) ×ₗ ((List Char) ×ₗ WithTop ℚ) :=
  toLex ((mappedModel r).toList, toLex (r.prompt.toList, tempKey r.temperature))

/-- Row comparison: key order on `rowKey`. -/
def rowLE (a b : Row) : Prop :=
  rowKey a ≤ rowKey b

instance : DecidableRel rowLE :=
  fun a b => inferInstanceAs (Decidable (rowKey a ≤ rowKey b))

instance : IsTotal Row rowLE :=
  ⟨fun a b => le_total (rowKey a) (rowKey b)⟩

instance : IsTrans Row rowLE :=
  ⟨fun _ _ _ hab hbc => le_trans hab hbc⟩

/-- The sort step `df.sort_values(["MappedModel", "Prompt", "Temperature"])`.
A multi-key sort in the source is a stable sort by the lexicographic key;
any stable sort by a fixed total preorder produces the same output list, so
it is embedded as a stable insertion sort by `rowLE`. -/
def sortRows (rows : List Row) : List Row :=
  List.insertionSort rowLE rows

/-- The derived column `df["Sum"] = df[avg_cols].sum(axis=1)` for one row:
the sum of the five aggregate-average metric values. -/
def rowSum (r : Row) : ℚ :=
  r.avg.ar + r.avg.c + r.avg.f + r.avg.h + r.avg.sia

/-- The row pipeline of the source before rendering: filter to recognized
prompts, remap prompt identifiers to display codes, sort. -/
def processRows (rows : List Row) : List Row :=
  sortRows ((rows.filter recognizedPrompt).map mapPromptRow)

/-- Decimal digits of `n` (most significant first), with fuel for structural
recursion; empty for 0. -/
def natDigitsAux : ℕ → ℕ → List Char
  | 0, _ => []
  | fuel + 1, n => if n = 0 then [] else natDigitsAux fuel (n / 10) ++ [Nat.digitChar (n % 10)]

/-- Plain decimal rendering of a natural number. -/
def natDecRepr (n : ℕ) : String :=
  if n = 0 then "0" else String.mk (natDigitsAux (n + 1) n)

/-- Floor of a rational, computed directly on the normalized representation
(the denominator is positive, so flooring division of the numerator by the
denominator is the floor of the fraction). -/
def qfloor (q : ℚ) : ℤ :=
  Int.fdiv q.num q.den

/-- Round a rational to the nearest integer, ties to even: the rounding used
by fixed-point float formatting in the source language. -/
def roundHalfEven (q : ℚ) : ℤ :=
  if q - qfloor q < 1/2 then qfloor q
  else if 1/2 < q - qfloor q then qfloor q + 1
  else if qfloor q % 2 = 0 then qfloor q else qfloor q + 1

/-- The fixed-point format of two decimal places applied to every metric and
total cell in the source. -/
def fmt2 (q : ℚ) : String :=
  let n := roundHalfEven (q * 100)
  (if n < 0 then "-" else "") ++ natDecRepr (n.natAbs / 100) ++ "." ++
    String.mk [Nat.digitChar (n.natAbs / 10 % 10), Nat.digitChar (n.natAbs % 10)]

/-- The fixed-point format of one decimal place applied to the temperature
cell in the source. -/
def fmt1 (q : ℚ) : String :=
  let n := roundHalfEven (q * 10)
  (if n < 0 then "-" else "") ++ natDecRepr (n.natAbs / 10) ++ "." ++
    String.mk [Nat.digitChar (n.natAbs % 10)]

/-- The temperature cell: one decimal place when the value is present, the
placeholder dash when it is missing. -/
def renderTemp : Option ℚ → String
  | some q => fmt1 q
  | none => "-"

/-- Character-level underscore escaping: the single-character replace call of
the source maps each underscore to a backslash-underscore pair and leaves
every other character unchanged. -/
def escList : List Char → List Char
  | [] => []
  | ch :: cs => (if ch = '_' then ['\\', '_'] else [ch]) ++ escList cs

/-- Underscore escaping on strings, `replace("_", "\\_")` of the source. -/
def escapeUnderscores (s : String) : String :=
  String.mk (escList s.toList)

/-- Join cells with the column separator of the target markup. -/
def joinAmp (cells : List String) : String :=
  String.intercalate " & " cells

/-- The five two-decimal cells of one column cluster, in source column
order. -/
def metricCells (v : MetricVals) : List String :=
  [fmt2 v.ar, fmt2 v.c, fmt2 v.f, fmt2 v.h, fmt2 v.sia]

/-- One rendered data line of the table body, mirroring the row f-string of
the source: escaped label, prompt code, temperature, the five averages, the
derived total, then the two reference-scoped clusters. -/
def renderLine (r : Row) : String :=
  escapeUnderscores (mappedModel r) ++ " & " ++ r.prompt ++ " & " ++
    renderTemp r.temperature ++ " & " ++ joinAmp (metricCells r.avg) ++ " & " ++
    fmt2 (rowSum r) ++ " & " ++ joinAmp (metricCells r.gpt4o) ++ " & " ++
    joinAmp (metricCells r.sonnet) ++ " \\\\\n"

/-- The fixed metric order and abbreviations of the source. -/
def metric_order : List (String × String) :=
  [("Answer Relevancy", "AR"),
   ("Correctness", "C"),
   ("Faithfulness", "F"),
   ("Hallucination", "H"),
   ("Specific Information Accuracy", "SIA")]

/-- The abbreviated header cells `\textbf{..}` joined with the column
separator. -/
def header_abbr : String :=
  String.intercalate " & "
    ((metric_order.map Prod.snd).map (fun a => "\\textbf\x7b" ++ a ++ "\x7d"))

/-- The static opening boilerplate of the document (the f-string template of
the source with its interpolations resolved), including the four-fragment
longtable pagination blocks. -/
def latexHeader : String :=
  "\n% Requires in preamble:\n" ++
  "%   \\usepackage\x7blscape,longtable,booktabs,adjustbox\x7d  % adjustbox only if you use method 2\n" ++
  "\\begin\x7blandscape\x7d\n" ++
  "% ==== Method 1: smaller font & tighter columns ====\n" ++
  "\\small\n" ++
  "\\setlength\x7b\\tabcolsep\x7d\x7b4pt\x7d       % default is ~6pt\n" ++
  "\\renewcommand\x7b\\arraystretch\x7d\x7b0.9\x7d  % tighten row height\n" ++
  "\\setlength\x7b\\LTleft\x7d\x7b0pt\x7d          % left align longtable\n" ++
  "\\setlength\x7b\\LTright\x7d\x7b0pt\x7d         % right align longtable\n" ++
  "\n" ++
  "% ==== Method 2 (optional): force to 90% of width ====\n" ++
  "\\begin\x7badjustbox\x7d\x7bwidth=0.9\\textwidth,center\x7d\n" ++
  "\n" ++
  "\\begin\x7blongtable\x7d\x7b|l|c|c|ccccc|c|ccccc|ccccc|\x7d\n" ++
  "\\caption\x7bDeepEval Generation Quality Benchmark Results (Reordered)\x7d \\\\\n" ++
  "\\toprule\n" ++
  "\\textbf\x7bModel\x7d & \\textbf\x7bPrompt\x7d & \\textbf\x7bTemp\x7d & \\multicolumn\x7b5\x7d\x7bc|\x7d\x7b\\textbf\x7bAvg. Scores\x7d\x7d & \\textbf\x7bTotal\x7d & \\multicolumn\x7b5\x7d\x7bc|\x7d\x7b\\textbf\x7bGPT-4o\x7d\x7d & \\multicolumn\x7b5\x7d\x7bc|\x7d\x7b\\textbf\x7bClaude 3.5\x7d\x7d \\\\\n" ++
  " & & & " ++ header_abbr ++ " & & " ++ header_abbr ++ " & " ++ header_abbr ++ " \\\\\n" ++
  "\\midrule\n" ++
  "\\endfirsthead\n" ++
  "\n" ++
  "\\multicolumn\x7b19\x7d\x7bc\x7d\x7b\\tablename\\ \\thetable\x7b\x7d -- continued from previous page\x7d \\\\\n" ++
  "\\midrule\n" ++
  "\\textbf\x7bModel\x7d & \\textbf\x7bPrompt\x7d & \\textbf\x7bTemp\x7d & " ++ header_abbr ++ " & & " ++ header_abbr ++ " & " ++ header_abbr ++ " \\\\\n" ++
  "\\midrule\n" ++
  "\\endhead\n" ++
  "\n" ++
  "\\midrule\n" ++
  "\\multicolumn\x7b19\x7d\x7br\x7d\x7bContinued on next page\x7d \\\\\n" ++
  "\\endfoot\n" ++
  "\n" ++
  "\\bottomrule\n" ++
  "\\endlastfoot\n"

/-- The static closing boilerplate of the document. -/
def latexFooter : String :=
  "\\end\x7blongtable\x7d\n" ++
  "\\end\x7badjustbox\x7d      % close Method 2\n" ++
  "\\end\x7blandscape\x7d\n"

/-- The rendered data lines of the document, one per surviving row. -/
def dataLines (rows : List Row) : List String :=
  (processRows rows).map renderLine

/-- The full document for a successfully read row table. -/
def buildDoc (rows : List Row) : String :=
  latexHeader ++ String.join (dataLines rows) ++ latexFooter

/-- Outcome of the row-source read `pd.read_csv(csv_path)`: the rows, or the
two caught read failures of the source. -/
inductive ReadResult where
  | ok (rows : List Row)
  | fileNotFound
  | readError (msg : String)

/-- Embedding of `generate_full_latex_table` from src/test.py. The row
source is a function from path to read outcome; the early returns of the two
except-branches are embedded as the error case of `Except`, the fall-through
document build as the ok case. -/
def generate_full_latex_table (fs : String → ReadResult) (csv_path : String) :
    Except String String :=
  match fs csv_path with
  | .fileNotFound =>
      .error ("Error: The file at " ++ csv_path ++ " was not found.")
  | .readError e =>
      .error ("An error occurred while reading the CSV file: " ++ e)
  | .ok rows => .ok (buildDoc rows)

/-- The plain (unordered) sort-key triple of a row, used to state stability:
two rows collide in the sort exactly when these triples are equal. -/
def rowKeyT (r : Row) : String × String × Option ℚ :=
  (mappedModel r, r.prompt, r.temperature)

/-- An all-zero metric cluster, used for concrete example rows. -/
def zeroVals : MetricVals :=
  ⟨0, 0, 0, 0, 0⟩

/-- Example row of the spec sorting scenario: label A, prompt P1,
temperature 0.0. -/
def rowA0 : Row :=
  ⟨"A", "P1", some 0, zeroVals, zeroVals, zeroVals⟩

/-- Example row of the spec sorting scenario: label A, prompt P1,
temperature 0.7. -/
def rowA7 : Row :=
  ⟨"A", "P1", some (7/10), zeroVals, zeroVals, zeroVals⟩

/-- Example row of the spec sorting scenario: label B, prompt P2,
temperature 0.5. -/
def rowB : Row :=
  ⟨"B", "P2", some (1/2), zeroVals, zeroVals, zeroVals⟩

/-- Example row of the spec total-derivation scenario: aggregate averages
0.80, 0.70, 0.60, 0.90, 0.50. -/
def rowTotalsExample : Row :=
  ⟨"m1", "P1", some 0, ⟨4/5, 7/10, 3/5, 9/10, 1/2⟩, zeroVals, zeroVals⟩

/-- C1: with a scalar policy every one of the five checks gets exactly that
scalar as threshold; with a mapping policy each check gets the mapping entry
under its canonical name when present and otherwise its own documented
fallback (0.9 for Correctness, Specific Information Accuracy, Answer
Relevancy and Faithfulness, 0.8 for Hallucination); resolution is a total
function, so an unmapped name never raises. -/
theorem get_metrics_threshold_resolution (model : Option String)
    (include_reason : Bool) (s : ℚ) (m : List (String × ℚ)) :
    (get_metrics model (.scalar s) include_reason).map Check.threshold
      = [s, s, s, s, s] ∧
    (get_metrics model (.mapping m) include_reason).map
        (fun c => (c.name, c.threshold))
      = [("Correctness", (m.lookup "Correctness").getD (9/10)),
         ("Specific Information Accuracy",
           (m.lookup "Specific Information Accuracy").getD (9/10)),
         ("Answer Relevancy", (m.lookup "Answer Relevancy").getD (9/10)),
         ("Faithfulness", (m.lookup "Faithfulness").getD (9/10)),
         ("Hallucination", (m.lookup "Hallucination").getD (4/5))] :=
  ⟨rfl, rfl⟩

/-- C8: for every backend, threshold policy and include_reason flag the suite
has exactly five checks, in the fixed order rubric Correctness, rubric
Specific Information Accuracy, classifier Answer Relevancy, classifier
Faithfulness, classifier Hallucination. -/
theorem get_metrics_fixed_suite (model : Option String)
    (thresholds : Thresholds) (include_reason : Bool) :
    (get_metrics model thresholds include_reason).map (fun c => (c.name, c.kind))
      = [("Correctness", .rubric),
         ("Specific Information Accuracy", .rubric),
         ("Answer Relevancy", .classifier),
         ("Faithfulness", .classifier),
         ("Hallucination", .classifier)] ∧
    (get_metrics model thresholds include_reason).length = 5 :=
  ⟨rfl, rfl⟩

/-- C5: suite construction fails with `InvalidThreshold` exactly when some
check threshold resolves outside the closed interval from 0 to 1 (returning
none of the suite), and otherwise it is total and returns precisely the
five-check suite of `get_metrics` with no other failure path. -/
theorem get_metrics_checked_threshold_validation (model : Option String)
    (thresholds : Thresholds) (include_reason : Bool) :
    ((∀ p ∈ checkDefaults,
        0 ≤ resolveThreshold thresholds p.1 p.2 ∧
          resolveThreshold thresholds p.1 p.2 ≤ 1) →
      get_metrics_checked model thresholds include_reason
        = .ok (get_metrics model thresholds include_reason)) ∧
    ((∃ p ∈ checkDefaults,
        ¬(0 ≤ resolveThreshold thresholds p.1 p.2 ∧
            resolveThreshold thresholds p.1 p.2 ≤ 1)) →
      get_metrics_checked model thresholds include_reason
        = .error .invalidThreshold) := by
  constructor
  · intro h
    simp only [checkDefaults, List.mem_cons, List.not_mem_nil, or_false,
      forall_eq_or_imp, forall_eq] at h
    obtain ⟨h1, h2, h3, h4, h5⟩ := h
    simp only [get_metrics_checked, mkCheck, get_metrics, h1, h2, h3, h4, h5, if_true, if_pos]
    rfl
  · intro h
    simp only [checkDefaults, List.mem_cons, List.not_mem_nil, or_false,
      exists_eq_or_imp, exists_eq_left] at h
    unfold get_metrics_checked mkCheck
    rcases h with h | h | h | h | h <;>
      simp only [bind, Except.bind, h, if_false, and_false, false_and] <;>
      split_ifs <;> rfl

/-- Concrete instantiation of C5: a uniform threshold of 1/2 builds the full
suite, a uniform threshold of 3/2 aborts with `InvalidThreshold`. -/
theorem get_metrics_checked_threshold_validation_witness :
    get_metrics_checked none (.scalar (1/2)) false
      = .ok (get_metrics none (.scalar (1/2)) false) ∧
    get_metrics_checked none (.scalar (3/2)) false
      = .error .invalidThreshold := by
  refine ⟨(get_metrics_checked_threshold_validation none (.scalar (1/2)) false).1 ?_,
          (get_metrics_checked_threshold_validation none (.scalar (3/2)) false).2 ?_⟩
  · intro p _
    exact ⟨by norm_num [resolveThreshold], by norm_num [resolveThreshold]⟩
  · exact ⟨("Correctness", 9/10), by simp [checkDefaults],
      by norm_num [resolveThreshold]⟩

/-- The sort step permutes the rows (helper, shared by several claims). -/
theorem sortRows_perm (rows : List Row) : (sortRows rows).Perm rows :=
  List.perm_insertionSort rowLE rows

/-- The sort step sorts by the lexicographic row key (helper, shared by
several claims). -/
theorem sortRows_sorted (rows : List Row) : List.Sorted rowLE (sortRows rows) :=
  List.sorted_insertionSort rowLE rows

/-- Rows with equal sort-key triples compare as equal (helper). -/
theorem rowLE_of_rowKeyT_eq {a b : Row} (hk : rowKeyT a = rowKeyT b) : rowLE a b := by
  have h1 : mappedModel a = mappedModel b := congrArg (fun t => t.1) hk
  have h2 : a.prompt = b.prompt := congrArg (fun t => t.2.1) hk
  have h3 : a.temperature = b.temperature := congrArg (fun t => t.2.2) hk
  unfold rowLE rowKey
  rw [h1, h2, h3]

/-- A digit value below ten renders as a decimal digit character (helper). -/
theorem digitChar_isDigit {d : ℕ} (hd : d < 10) : (Nat.digitChar d).isDigit = true := by
  interval_cases d <;> decide

/-- All characters produced by `natDigitsAux` are decimal digits (helper). -/
theorem natDigitsAux_digits :
    ∀ (fuel n : ℕ), ∀ ch ∈ natDigitsAux fuel n, ch.isDigit = true := by
  intro fuel
  induction fuel with
  | zero => intro n ch h; simp [natDigitsAux] at h
  | succ f ih =>
    intro n ch h
    by_cases hn : n = 0
    · simp [natDigitsAux, hn] at h
    · simp only [natDigitsAux, hn, if_false, List.mem_append, List.mem_singleton] at h
      rcases h with h | h
      · exact ih _ ch h
      · subst h; exact digitChar_isDigit (Nat.mod_lt _ (by norm_num))

/-- The decimal rendering of a natural number is a nonempty string of
decimal digits (helper). -/
theorem natDecRepr_digits (n : ℕ) :
    (natDecRepr n).toList ≠ [] ∧ ∀ ch ∈ (natDecRepr n).toList, ch.isDigit = true := by
  unfold natDecRepr
  by_cases hn : n = 0
  · subst hn
    exact ⟨by decide, by decide⟩
  · simp only [hn, if_false]
    constructor
    · show natDigitsAux (n + 1) n ≠ []
      simp [natDigitsAux, hn]
    · intro ch h
      exact natDigitsAux_digits (n + 1) n ch h

/-- C2: the report generator sorts rows by the triple (display label,
display prompt code, temperature value) in ascending lexicographic order
with a stable sort: the output is sorted by the row key, is a permutation of
the input, rows with equal sort keys keep their input relative order, and on
the spec example rows {B P2 0.5, A P1 0.0, A P1 0.7} the output is the two A
rows in ascending temperature order followed by the B row. -/
theorem sort_by_label_prompt_temperature :
    (∀ rows : List Row, List.Sorted rowLE (sortRows rows)) ∧
    (∀ rows : List Row, (sortRows rows).Perm rows) ∧
    (∀ (rows : List Row) (k : String × String × Option ℚ),
        (sortRows rows).filter (fun r => decide (rowKeyT r = k))
          = rows.filter (fun r => decide (rowKeyT r = k))) ∧
    sortRows [rowB, rowA0, rowA7] = [rowA0, rowA7, rowB] := by
  refine ⟨sortRows_sorted, sortRows_perm, ?_, by with_unfolding_all decide⟩
  intro rows k
  set p : Row → Bool := fun r => decide (rowKeyT r = k) with hp
  have hmem : ∀ a ∈ rows.filter p, rowKeyT a = k := by
    intro a ha
    have hpa := List.of_mem_filter ha
    simpa [hp] using hpa
  have hpair : (rows.filter p).Pairwise rowLE := by
    apply List.pairwise_of_forall_mem_list
    intro a ha b hb
    exact rowLE_of_rowKeyT_eq ((hmem a ha).trans (hmem b hb).symm)
  have hsub : List.Sublist (rows.filter p) (sortRows rows) :=
    List.sublist_insertionSort hpair (List.filter_sublist rows)
  have hidem : (rows.filter p).filter p = rows.filter p :=
    List.filter_eq_self.mpr (fun a ha => List.of_mem_filter ha)
  have hsub2 : List.Sublist (rows.filter p) ((sortRows rows).filter p) := by
    have h2 := hsub.filter p
    rwa [hidem] at h2
  have hlen : (rows.filter p).length = ((sortRows rows).filter p).length := by
    rw [← List.countP_eq_length_filter, ← List.countP_eq_length_filter]
    exact ((sortRows_perm rows).countP_eq p).symm
  exact (hsub2.eq_of_length hlen).symm

/-- C10: in the sorted output, among rows with equal display label and
prompt code, a row with a missing temperature never precedes a row with a
present temperature, i.e. missing temperatures collate last within each
group; the sort is a pure function of its input, so the placement is the
same on every run. -/
theorem missing_temperature_sorts_last (rows : List Row) :
    (sortRows rows).Pairwise (fun a b =>
      mappedModel a = mappedModel b → a.prompt = b.prompt →
        a.temperature = none → b.temperature = none) := by
  refine List.Pairwise.imp ?_ (sortRows_sorted rows)
  intro a b hab hm hpr ht
  unfold rowLE rowKey at hab
  rw [Prod.Lex.le_iff] at hab
  rcases hab with hlt | ⟨_, hle⟩
  · rw [hm] at hlt
    exact absurd hlt (lt_irrefl _)
  · rw [Prod.Lex.le_iff] at hle
    rcases hle with hlt2 | ⟨_, hle2⟩
    · rw [hpr] at hlt2
      exact absurd hlt2 (lt_irrefl _)
    · rw [ht] at hle2
      cases hbt : b.temperature with
      | none => rfl
      | some q =>
        rw [hbt] at hle2
        simp only [tempKey] at hle2
        exact absurd (top_le_iff.mp hle2) (WithTop.coe_ne_top)

/-- C3: the surviving rows of the pipeline are exactly the input rows whose
raw prompt identifier is one of the two recognized ones, each contributing
exactly one output row (as a multiset: the output is a permutation of the
remapped filtered input, so the prompt filter is the only way a row is
dropped and the row count equals the recognized count), and every surviving
row carries one of the two short display codes. -/
theorem prompt_filtering (rows : List Row) :
    (processRows rows).Perm ((rows.filter recognizedPrompt).map mapPromptRow) ∧
    (processRows rows).length = (rows.filter recognizedPrompt).length ∧
    (processRows rows).all (fun r => r.prompt == "P1" || r.prompt == "P2") = true := by
  have hperm : (processRows rows).Perm ((rows.filter recognizedPrompt).map mapPromptRow) :=
    sortRows_perm _
  refine ⟨hperm, ?_, ?_⟩
  · rw [hperm.length_eq, List.length_map]
  · rw [List.all_eq_true]
    intro r hr
    have hr2 : r ∈ (rows.filter recognizedPrompt).map mapPromptRow :=
      hperm.mem_iff.mp hr
    obtain ⟨x, hx, rfl⟩ := List.mem_map.mp hr2
    have hrec : recognizedPrompt x = true := List.of_mem_filter hx
    rcases eq_or_ne x.prompt "current_user_template.txt" with h1 | h1
    · simp [mapPromptRow, prompt_mapping, h1]
    · rcases eq_or_ne x.prompt "previous_user_template.txt" with h2 | h2
      · simp only [mapPromptRow, h2]
        decide
      · exfalso
        simp [recognizedPrompt, prompt_mapping, h1, h2] at hrec

/-- C4: when the row source cannot be read the generator returns the
corresponding read-failure error signal and no document, this read failure
is the only failure of the operation, and on a successful read it always
returns the full built document. -/
theorem generate_source_unavailable (fs : String → ReadResult) (csv_path : String) :
    (fs csv_path = .fileNotFound →
      generate_full_latex_table fs csv_path
        = .error ("Error: The file at " ++ csv_path ++ " was not found.")) ∧
    (∀ e, fs csv_path = .readError e →
      generate_full_latex_table fs csv_path
        = .error ("An error occurred while reading the CSV file: " ++ e)) ∧
    (∀ rows, fs csv_path = .ok rows →
      generate_full_latex_table fs csv_path = .ok (buildDoc rows)) := by
  refine ⟨fun h => ?_, fun e h => ?_, fun rows h => ?_⟩ <;>
    simp [generate_full_latex_table, h]

/-- Concrete instantiation of C4: a missing file, a failing reader and a
successful empty read, each at the csv path of the source main block. -/
theorem generate_source_unavailable_witness :
    generate_full_latex_table (fun _ => .fileNotFound) "macro_evaluation_results.csv"
      = .error "Error: The file at macro_evaluation_results.csv was not found." ∧
    generate_full_latex_table (fun _ => .readError "bad header") "macro_evaluation_results.csv"
      = .error "An error occurred while reading the CSV file: bad header" ∧
    generate_full_latex_table (fun _ => .ok []) "macro_evaluation_results.csv"
      = .ok (buildDoc []) := by
  refine ⟨?_, ?_, ?_⟩
  · exact ((generate_source_unavailable (fun _ => .fileNotFound)
      "macro_evaluation_results.csv").1 rfl).trans (by rfl)
  · exact ((generate_source_unavailable (fun _ => .readError "bad header")
      "macro_evaluation_results.csv").2.1 "bad header" rfl).trans (by rfl)
  · exact (generate_source_unavailable (fun _ => .ok [])
      "macro_evaluation_results.csv").2.2 [] rfl

/-- C6: in every rendered data line the derived total cell is the sum of the
row's five aggregate-average metric values formatted to two decimal places,
sitting between the five average cells and the two reference clusters; in
particular the averages 0.80, 0.70, 0.60, 0.90, 0.50 render the total 3.50. -/
theorem total_is_sum_of_averages :
    (∀ r : Row,
      renderLine r
        = (escapeUnderscores (mappedModel r) ++ " & " ++ r.prompt ++ " & "
            ++ renderTemp r.temperature ++ " & " ++ joinAmp (metricCells r.avg) ++ " & ")
          ++ fmt2 (r.avg.ar + r.avg.c + r.avg.f + r.avg.h + r.avg.sia)
          ++ (" & " ++ joinAmp (metricCells r.gpt4o) ++ " & "
            ++ joinAmp (metricCells r.sonnet) ++ " \\\\\n")) ∧
    fmt2 ((4 : ℚ)/5 + 7/10 + 3/5 + 9/10 + 1/2) = "3.50" ∧
    renderLine rowTotalsExample
      = "m1 & P1 & 0.0 & 0.80 & 0.70 & 0.60 & 0.90 & 0.50 & 3.50 & 0.00 & 0.00 & 0.00 & 0.00 & 0.00 & 0.00 & 0.00 & 0.00 & 0.00 & 0.00 \\\\\n" := by
  refine ⟨?_, by with_unfolding_all decide, by with_unfolding_all decide⟩
  intro r
  simp only [renderLine, rowSum, String.append_assoc]

/-- C7: every two-decimal cell renders as an optional minus sign, a nonempty
run of decimal digits, a point and exactly two digits; the temperature cell
renders as the same shape with exactly one digit after the point when the
value is present and as the placeholder dash when it is absent; in
particular no cell is ever rendered in scientific exponent form or with a
variable number of decimals. -/
theorem fixed_precision_formatting :
    (∀ q : ℚ, ∃ (sign ip : String) (d1 d2 : ℕ),
        d1 < 10 ∧ d2 < 10 ∧ (sign = "" ∨ sign = "-") ∧
        ip.toList ≠ [] ∧ (∀ ch ∈ ip.toList, ch.isDigit = true) ∧
        fmt2 q = sign ++ ip ++ "." ++ String.mk [Nat.digitChar d1, Nat.digitChar d2]) ∧
    (∀ q : ℚ, ∃ (sign ip : String) (d : ℕ),
        d < 10 ∧ (sign = "" ∨ sign = "-") ∧
        ip.toList ≠ [] ∧ (∀ ch ∈ ip.toList, ch.isDigit = true) ∧
        fmt1 q = sign ++ ip ++ "." ++ String.mk [Nat.digitChar d]) ∧
    renderTemp none = "-" ∧
    (∀ q : ℚ, renderTemp (some q) = fmt1 q) := by
  refine ⟨?_, ?_, rfl, fun q => rfl⟩
  · intro q
    refine ⟨if roundHalfEven (q * 100) < 0 then "-" else "",
      natDecRepr ((roundHalfEven (q * 100)).natAbs / 100),
      (roundHalfEven (q * 100)).natAbs / 10 % 10,
      (roundHalfEven (q * 100)).natAbs % 10,
      Nat.mod_lt _ (by norm_num), Nat.mod_lt _ (by norm_num), ?_,
      (natDecRepr_digits _).1, (natDecRepr_digits _).2, rfl⟩
    by_cases h : roundHalfEven (q * 100) < 0
    · right; simp [h]
    · left; simp [h]
  · intro q
    refine ⟨if roundHalfEven (q * 10) < 0 then "-" else "",
      natDecRepr ((roundHalfEven (q * 10)).natAbs / 10),
      (roundHalfEven (q * 10)).natAbs % 10,
      Nat.mod_lt _ (by norm_num), ?_,
      (natDecRepr_digits _).1, (natDecRepr_digits _).2, rfl⟩
    by_cases h : roundHalfEven (q * 10) < 0
    · right; simp [h]
    · left; simp [h]

/-- C9: a row whose raw model identifier is not in the curated mapping keeps
the raw identifier as its display label; rendering escapes every underscore
of the label as a backslash-underscore pair and alters no other character
(an underscore-free label renders unchanged); such a row still heads its
rendered line; and no row is dropped over the model mapping, since the
surviving row count depends only on the prompt filter. -/
theorem label_fallback_and_escaping :
    (∀ r : Row, model_name_mapping.lookup r.model = none →
        mappedModel r = r.model) ∧
    (∀ s : String, (escapeUnderscores s).toList
        = s.toList.flatMap (fun ch => if ch = '_' then ['\\', '_'] else [ch])) ∧
    (∀ s : String, '_' ∉ s.toList → escapeUnderscores s = s) ∧
    (∀ r : Row, model_name_mapping.lookup r.model = none →
        ∃ rest : String, renderLine r = escapeUnderscores r.model ++ rest) ∧
    (∀ rows : List Row,
        (processRows rows).length = (rows.filter recognizedPrompt).length) := by
  have hfall : ∀ r : Row, model_name_mapping.lookup r.model = none →
      mappedModel r = r.model := by
    intro r h
    unfold mappedModel
    rw [h]
    rfl
  have hesc : ∀ l : List Char,
      escList l = l.flatMap (fun ch => if ch = '_' then ['\\', '_'] else [ch]) := by
    intro l
    induction l with
    | nil => rfl
    | cons ch cs ih => simp [escList, ih]
  refine ⟨hfall, ?_, ?_, ?_, ?_⟩
  · intro s
    exact hesc s.toList
  · intro s hs
    have h2 : ∀ l : List Char, '_' ∉ l → escList l = l := by
      intro l
      induction l with
      | nil => intro _; rfl
      | cons ch cs ih =>
        intro hl
        simp only [List.mem_cons, not_or] at hl
        simp [escList, Ne.symm hl.1, ih hl.2]
    show String.mk (escList s.toList) = s
    rw [h2 s.toList hs]
    rfl
  · intro r h
    refine ⟨" & " ++ r.prompt ++ " & " ++ renderTemp r.temperature ++ " & "
      ++ joinAmp (metricCells r.avg) ++ " & " ++ fmt2 (rowSum r) ++ " & "
      ++ joinAmp (metricCells r.gpt4o) ++ " & " ++ joinAmp (metricCells r.sonnet)
      ++ " \\\\\n", ?_⟩
    rw [renderLine, hfall r h]
    simp only [String.append_assoc]
  · intro rows
    show (sortRows ((rows.filter recognizedPrompt).map mapPromptRow)).length = _
    rw [(sortRows_perm _).length_eq, List.length_map]

/-- Concrete instantiation of C9: the unmapped identifier MY_MODEL falls
through to itself and renders with its underscore escaped, and an
underscore-free label is left unchanged by escaping. -/
theorem label_fallback_and_escaping_witness :
    mappedModel ⟨"MY_MODEL", "current_user_template.txt", none, zeroVals, zeroVals, zeroVals⟩
      = "MY_MODEL" ∧
    escapeUnderscores "MY_MODEL" = "MY\\_MODEL" ∧
    escapeUnderscores "Gecko" = "Gecko" := by
  refine ⟨?_, by with_unfolding_all decide, ?_⟩
  · exact label_fallback_and_escaping.1 _ (by decide)
  · exact label_fallback_and_escaping.2.2.1 "Gecko" (by decide)
